import Mathlib

/-!
Shallow embedding of the GZHU library auto-sign-in scripts
(`libs/source.py` and `sign.py`): the return-code enumeration, the
cookie-cache file format, the login/session-negotiation control flow,
the reservation inspection and the sign-in workflow, together with
theorems checking the documented behaviour.

Python strings are modelled as lists of unicode characters; Python
integers as `Int` (bitwise operations via `Int.land` / `Int.lor`,
which share Python's two's-complement semantics).  Network responses
are passed in explicitly, so every function of the scripts becomes a
pure function of its scripted responses.
-/

namespace GZHU

/-- Python strings modelled as lists of unicode characters. -/
abbrev PyStr := List Char

/-- The `ReturnCode` enumeration of `libs/source.py` (lines 41-51). -/
inductive ReturnCode where
  | SUCCESS
  | ALREADY_SIGNED
  | NO_RESERVATION
  | GET_LOGIN_URL_FAILED
  | LOGIN_SKIPED
  | COOKIE_EXPIRED
  | FAILED
deriving DecidableEq, Repr

/-- The needs-sign-in test applied to each record's `resvStatus` in
`ZWYT.get_ahead_reservation` (`libs/source.py` line 429):
`(resvStatus & 64 == 0) or (resvStatus & 2048 != 0)`. -/
def needsSignIn (resvStatus : Int) : Bool :=
  (Int.land resvStatus 64 == 0) || (Int.land resvStatus 2048 != 0)

/-- The needs-sign-in predicate exactly as the specification words it:
`((m & 64) == 0) or ((m & 2048) != 0)`. -/
def needsSignIn_spec (m : Int) : Bool :=
  (Int.land m 64 == 0) || (Int.land m 2048 != 0)

/-- One reservation record of the `resvInfo` response, with the fields
`get_ahead_reservation` reads. -/
structure ResvRecord where
  resvId : Int
  resvStatus : Int
deriving DecidableEq, Repr

/-- The JSON payload of the `resvInfo` endpoint as read by
`get_ahead_reservation`: numeric `code`, a `message`, the record list
`data` and the total `count`. -/
structure ResvInfoRes where
  code : Int
  message : PyStr
  data : List ResvRecord
  count : Int
deriving DecidableEq, Repr

/-- `ZWYT.get_ahead_reservation` (`libs/source.py` lines 401-447), as a
function of the scripted `resvInfo` response: on `code == 0` the records
are filtered by the needs-sign-in test and the first match (if any) is
returned with `SUCCESS`, an empty filter result giving `NO_RESERVATION`;
`code == 300` gives `COOKIE_EXPIRED`; any other code gives `FAILED`. -/
def get_ahead_reservation (res : ResvInfoRes) : Option ResvRecord × ReturnCode :=
  if res.code = 0 then
    let resv := res.data.filter (fun item => needsSignIn item.resvStatus)
    if resv.length = 0 then
      (none, ReturnCode.NO_RESERVATION)
    else
      (resv.head?, ReturnCode.SUCCESS)
  else if res.code = 300 then
    (none, ReturnCode.COOKIE_EXPIRED)
  else
    (none, ReturnCode.FAILED)

/-- C1: for every integer bitmask `m`, the needs-sign-in predicate used to
filter reservation records equals `((m & 64) == 0) or ((m & 2048) != 0)`;
in particular `needsSignIn 1 = true`, `needsSignIn 64 = false`,
`needsSignIn (64 | 2048) = true` and `needsSignIn 6 = true`. -/
theorem needsSignIn_spec_equiv :
    (∀ m : Int, needsSignIn m = needsSignIn_spec m)
    ∧ needsSignIn 1 = true
    ∧ needsSignIn 64 = false
    ∧ needsSignIn (Int.lor 64 2048) = true
    ∧ needsSignIn 6 = true := by
  refine ⟨fun m => rfl, ?_, ?_, ?_, ?_⟩ <;> decide

/-- The head of a filtered list is the first element satisfying the
predicate, in list order. -/
theorem filter_head?_eq_find? {α : Type} (p : α → Bool) (l : List α) :
    (l.filter p).head? = l.find? p := by
  induction l with
  | nil => rfl
  | cons a t ih =>
    by_cases h : p a
    · simp [List.filter_cons, List.find?_cons, h]
    · simp [List.filter_cons, List.find?_cons, h, ih]

/-- C4: `get_ahead_reservation` maps the response code as documented:
`code = 0` filters the records by the needs-sign-in predicate, returning
`NO_RESERVATION` with no record when nothing matches and the first
matching record in response order with `SUCCESS` otherwise; `code = 300`
returns `COOKIE_EXPIRED`; any other code returns `FAILED`. -/
theorem get_ahead_reservation_cases (res : ResvInfoRes) :
    (res.code = 0 → res.data.filter (fun item => needsSignIn item.resvStatus) = [] →
        get_ahead_reservation res = (none, ReturnCode.NO_RESERVATION))
    ∧ (res.code = 0 → res.data.filter (fun item => needsSignIn item.resvStatus) ≠ [] →
        get_ahead_reservation res
          = (res.data.find? (fun item => needsSignIn item.resvStatus), ReturnCode.SUCCESS))
    ∧ (res.code = 300 → get_ahead_reservation res = (none, ReturnCode.COOKIE_EXPIRED))
    ∧ (res.code ≠ 0 → res.code ≠ 300 → get_ahead_reservation res = (none, ReturnCode.FAILED)) := by
  refine ⟨?_, ?_, ?_, ?_⟩
  · intro h0 hfilt
    simp [get_ahead_reservation, h0, hfilt]
  · intro h0 hfilt
    have hlen : ¬((res.data.filter (fun item => needsSignIn item.resvStatus)).length = 0) :=
      fun h => hfilt (List.length_eq_zero.mp h)
    rw [← filter_head?_eq_find?]
    simp [get_ahead_reservation, h0, hlen]
  · intro h300
    by_cases h0 : res.code = 0
    · omega
    · simp [get_ahead_reservation, h0, h300]
  · intro h0 h300
    simp [get_ahead_reservation, h0, h300]

/-- A query response for the end-to-end scenario of the specification:
`code 0`, three records with statuses 2, 64 and 2112. -/
def scenarioRes : ResvInfoRes :=
  { code := 0
    message := []
    data := [⟨101, 2⟩, ⟨102, 64⟩, ⟨103, 2112⟩]
    count := 3 }

theorem get_ahead_reservation_cases_witness :
    get_ahead_reservation scenarioRes = (some ⟨101, 2⟩, ReturnCode.SUCCESS) := by
  have h := (get_ahead_reservation_cases scenarioRes).2.1 rfl (by decide)
  rw [h]
  decide

/-- The per-identity retry loop of `main` in `sign.py` (lines 64-80),
with the outcome of the k-th `login` call and the outcome of the k-th
`sign_for_ahead_reservation` call supplied by the oracles `login` and
`signIn`.  `fuel` is the remaining `range(2)` iteration count, `retc`
the current return code, `nL`/`nS` the calls made so far; the result is
the total number of `login` calls and of sign-in calls performed. -/
def signLoop (login : Nat → Bool → ReturnCode) (signIn : Nat → ReturnCode) :
    Nat → ReturnCode → Nat → Nat → Nat × Nat
  | 0, _, nL, nS => (nL, nS)
  | fuel + 1, retc, nL, nS =>
    let r1 := login nL (retc == ReturnCode.COOKIE_EXPIRED)
    if r1 = ReturnCode.GET_LOGIN_URL_FAILED then
      (nL + 1, nS)
    else
      let r2 := signIn nS
      if r2 = ReturnCode.SUCCESS ∨ r2 = ReturnCode.ALREADY_SIGNED ∨
          r2 = ReturnCode.NO_RESERVATION then
        (nL + 1, nS + 1)
      else
        signLoop login signIn fuel r2 (nL + 1) (nS + 1)

/-- The body of `main` for one identity: `for _ in range(2)` starting
from `retc = ReturnCode.SUCCESS` with no calls made yet. -/
def main_loop (login : Nat → Bool → ReturnCode) (signIn : Nat → ReturnCode) : Nat × Nat :=
  signLoop login signIn 2 ReturnCode.SUCCESS 0 0

/-- `signLoop` adds at most `fuel` to each call counter. -/
theorem signLoop_le (login : Nat → Bool → ReturnCode) (signIn : Nat → ReturnCode)
    (fuel : Nat) (retc : ReturnCode) (nL nS : Nat) :
    (signLoop login signIn fuel retc nL nS).1 ≤ nL + fuel
    ∧ (signLoop login signIn fuel retc nL nS).2 ≤ nS + fuel := by
  induction fuel generalizing retc nL nS with
  | zero => simp [signLoop]
  | succ n ih =>
    simp only [signLoop]
    split
    · constructor <;> omega
    · split
      · constructor <;> omega
      · have := ih (signIn nS) (nL + 1) (nS + 1)
        constructor <;> omega

/-- C3: the per-identity loop calls `login` at most twice and the
sign-in step at most twice; it stops immediately when `login` returns
`GET_LOGIN_URL_FAILED` (no sign-in call in that iteration), and stops as
soon as the sign-in step returns `SUCCESS`, `ALREADY_SIGNED` or
`NO_RESERVATION`. -/
theorem main_loop_bounds (login : Nat → Bool → ReturnCode) (signIn : Nat → ReturnCode) :
    (main_loop login signIn).1 ≤ 2 ∧ (main_loop login signIn).2 ≤ 2
    ∧ (login 0 false = ReturnCode.GET_LOGIN_URL_FAILED → main_loop login signIn = (1, 0))
    ∧ (login 0 false ≠ ReturnCode.GET_LOGIN_URL_FAILED →
        (signIn 0 = ReturnCode.SUCCESS ∨ signIn 0 = ReturnCode.ALREADY_SIGNED ∨
         signIn 0 = ReturnCode.NO_RESERVATION) →
        main_loop login signIn = (1, 1))
    ∧ (login 0 false ≠ ReturnCode.GET_LOGIN_URL_FAILED →
        ¬(signIn 0 = ReturnCode.SUCCESS ∨ signIn 0 = ReturnCode.ALREADY_SIGNED ∨
          signIn 0 = ReturnCode.NO_RESERVATION) →
        login 1 (signIn 0 == ReturnCode.COOKIE_EXPIRED) = ReturnCode.GET_LOGIN_URL_FAILED →
        main_loop login signIn = (2, 1)) := by
  have hforce : (ReturnCode.SUCCESS == ReturnCode.COOKIE_EXPIRED) = false := rfl
  refine ⟨(signLoop_le login signIn 2 ReturnCode.SUCCESS 0 0).1,
          (signLoop_le login signIn 2 ReturnCode.SUCCESS 0 0).2, ?_, ?_, ?_⟩
  · intro h1
    simp [main_loop, signLoop, hforce, h1]
  · intro h1 h2
    simp [main_loop, signLoop, hforce, h1, h2]
  · intro h1 h2 h3
    simp [main_loop, signLoop, hforce, h1, h2, h3]

/-- A login oracle that always fails to resolve the login url. -/
def wLogin : Nat → Bool → ReturnCode := fun _ _ => ReturnCode.GET_LOGIN_URL_FAILED

/-- A sign-in oracle that always fails. -/
def wSign : Nat → ReturnCode := fun _ => ReturnCode.FAILED

theorem main_loop_bounds_witness : main_loop wLogin wSign = (1, 0) :=
  (main_loop_bounds wLogin wSign).2.2.1 rfl

/-- The whitespace characters recognised by Python's `str.strip()` and
`str.split(None)` (the ASCII ones; exotic unicode space characters are
outside the model). -/
def isPySpace (c : Char) : Bool :=
  c = ' ' || c = '\t' || c = '\n' || c = '\r' || c = '\x0b' || c = '\x0c'

/-- Python `s.strip()`: drop leading and trailing whitespace. -/
def pyStrip (s : PyStr) : PyStr :=
  ((s.dropWhile isPySpace).reverse.dropWhile isPySpace).reverse

/-- Python `s.split(None, 1)`: runs of whitespace separate the fields,
leading whitespace is ignored, at most one split is made, and the
remainder after the first separator run is kept verbatim. -/
def pySplitMax1 (s : PyStr) : List PyStr :=
  let t := s.dropWhile isPySpace
  if t = [] then []
  else
    let fst := t.takeWhile (fun c => !isPySpace c)
    let rest := (t.drop fst.length).dropWhile isPySpace
    if rest = [] then [fst] else [fst, rest]

/-- Splitting a character list on a separator character, keeping empty
groups (as Python `str.split(sep)` does). -/
def splitOnChar (sep : Char) : PyStr → List PyStr
  | [] => [[]]
  | c :: cs =>
    if c = sep then [] :: splitOnChar sep cs
    else
      match splitOnChar sep cs with
      | [] => [[c]]
      | g :: gs => (c :: g) :: gs

/-- A character allowed by the `[a-f\d]` atom of the uuid pattern of
`load_cookie_cache` (`libs/source.py` line 82): a lowercase `a`-`f` or a
decimal digit. -/
def isUuidChar (c : Char) : Bool :=
  ('a' ≤ c && c ≤ 'f') || c.isDigit

/-- `re.fullmatch` of the uuid pattern
`[a-f\d]{8}-(?:[a-f\d]{4}-){3}[a-f\d]{12}`: five dash-separated groups
of lengths 8, 4, 4, 4 and 12 whose characters all satisfy `[a-f\d]`. -/
def isUuid (s : PyStr) : Bool :=
  match splitOnChar '-' s with
  | [a, b, c, d, e] =>
    a.length == 8 && b.length == 4 && c.length == 4 && d.length == 4 && e.length == 12
      && (a ++ b ++ c ++ d ++ e).all isUuidChar
  | _ => false

/-- `f.readlines()` on a text file: split the content on the newline
character; a trailing newline does not produce a final empty line.
(The later `strip()` removes the terminators, so lines are modelled
without them.) -/
def readlines (content : PyStr) : List PyStr :=
  let ps := splitOnChar '\n' content
  if ps.getLast? = some [] then ps.dropLast else ps

/-- `cookie_dict[name] = value` on a Python dict modelled as an
insertion-ordered association list: an existing key is updated in
place, a new key is appended at the end. -/
def insertAssoc (d : List (PyStr × PyStr)) (k v : PyStr) : List (PyStr × PyStr) :=
  match d with
  | [] => [(k, v)]
  | (k0, v0) :: rest =>
    if k0 = k then (k, v) :: rest else (k0, v0) :: insertAssoc rest k v

/-- The body of the `for line in cookies` loop of `load_cookie_cache`
for one line.  A `len(line) != 2` split result of length zero makes the
warning's `line[0]` raise `IndexError` (modelled by `Except.error`); a
length-one result is skipped with a warning; a two-field result is kept
iff the second field fully matches the uuid pattern. -/
def loadLine (acc : List (PyStr × PyStr)) (line : PyStr) :
    Except String (List (PyStr × PyStr)) :=
  match pySplitMax1 (pyStrip line) with
  | [] => .error "IndexError"
  | [_] => .ok acc
  | [name, tok] => if isUuid tok then .ok (insertAssoc acc name tok) else .ok acc
  | _ :: _ :: _ :: _ => .ok acc

/-- The `for line in cookies` loop of `load_cookie_cache`, threading
the accumulated dict; a raised exception aborts the whole call. -/
def loadLines : List PyStr → List (PyStr × PyStr) → Except String (List (PyStr × PyStr))
  | [], acc => .ok acc
  | line :: rest, acc =>
    match loadLine acc line with
    | .error e => .error e
    | .ok acc2 => loadLines rest acc2

/-- `load_cookie_cache` (`libs/source.py` lines 73-102) applied to a
file with the given existence flag and content: a missing file logs a
warning and yields the empty dict; otherwise every line of the content
is processed in order. -/
def load_cookie_cache (fileExists : Bool) (content : PyStr) :
    Except String (List (PyStr × PyStr)) :=
  if fileExists then loadLines (readlines content) [] else .ok []

/-- `save_cookie_cache` (`libs/source.py` lines 104-108): one
`"{name} {cookie}\n"` line per dict entry, in dict order. -/
def save_cookie_cache (cookies : List (PyStr × PyStr)) : PyStr :=
  (cookies.map (fun p => p.1 ++ ' ' :: p.2 ++ ['\n'])).flatten

/-- C10: a missing cache file yields the empty mapping without a fault,
and is indistinguishable from an existing empty file. -/
theorem load_missing_file (content : PyStr) :
    load_cookie_cache false content = Except.ok []
    ∧ load_cookie_cache false content = load_cookie_cache true [] := by
  exact ⟨rfl, rfl⟩

/-- C8 failing input: on a file consisting of a blank line the
malformed-line warning indexes `line[0]` on an empty split result, so
`load_cookie_cache` raises `IndexError` instead of skipping the line;
a one-field line, in contrast, is skipped and loading continues. -/
theorem load_blank_line_raises :
    load_cookie_cache true ['\n'] = Except.error "IndexError"
    ∧ load_cookie_cache true [' ', '\n'] = Except.error "IndexError"
    ∧ load_cookie_cache true ['x', '\n'] = Except.ok [] := by
  exact ⟨rfl, rfl, rfl⟩

/-- A well-formed uuid token. -/
def uuidTok : PyStr := "12345678-1234-1234-1234-123456789abc".data

/-- A cache entry whose name and token are non-empty and contain no
whitespace character. -/
def goodPair (p : PyStr × PyStr) : Prop :=
  p.1 ≠ [] ∧ (∀ c ∈ p.1, isPySpace c = false) ∧ p.2 ≠ [] ∧ (∀ c ∈ p.2, isPySpace c = false)

instance : DecidablePred goodPair := fun p => by
  unfold goodPair
  infer_instance

/-- The text line written for one cache entry, without its newline. -/
def cacheLine (p : PyStr × PyStr) : PyStr := p.1 ++ ' ' :: p.2

/-- One `cookie_dict` update of the load loop. -/
def loadStep (a : List (PyStr × PyStr)) (p : PyStr × PyStr) : List (PyStr × PyStr) :=
  if isUuid p.2 then insertAssoc a p.1 p.2 else a

/-- `dropWhile` leaves a whitespace-free non-empty list unchanged. -/
theorem dropWhile_good (t : PyStr) (ht1 : t ≠ []) (ht : ∀ c ∈ t, isPySpace c = false) :
    t.dropWhile isPySpace = t := by
  obtain ⟨d, ds, rfl⟩ := List.exists_cons_of_ne_nil ht1
  simp [List.dropWhile_cons, ht d (List.mem_cons_self d ds)]

/-- `dropWhile` leaves a cache line unchanged: its head is a character
of the (whitespace-free, non-empty) name. -/
theorem dropWhile_goodLine (n t : PyStr) (hn1 : n ≠ [])
    (hn : ∀ c ∈ n, isPySpace c = false) :
    (n ++ ' ' :: t).dropWhile isPySpace = n ++ ' ' :: t := by
  obtain ⟨c, cs, rfl⟩ := List.exists_cons_of_ne_nil hn1
  simp [List.dropWhile_cons, hn c (List.mem_cons_self c cs)]

/-- `takeWhile` collects exactly the prefix before the first failing
element. -/
theorem takeWhile_append_cons {p : Char → Bool} :
    ∀ (a : PyStr) (x : Char) (b : PyStr), (∀ c ∈ a, p c = true) → p x = false →
      (a ++ x :: b).takeWhile p = a
  | [], x, b, _, hx => by simp [List.takeWhile_cons, hx]
  | c :: cs, x, b, h, hx => by
    have hc : p c = true := h c (List.mem_cons_self c cs)
    simp [List.takeWhile_cons, hc,
      takeWhile_append_cons cs x b (fun d hd => h d (List.mem_cons_of_mem c hd)) hx]

/-- Stripping a cache line of a well-formed pair changes nothing: its
first and last characters are non-whitespace. -/
theorem pyStrip_goodLine (n t : PyStr) (hn1 : n ≠ [])
    (hn : ∀ c ∈ n, isPySpace c = false) (ht1 : t ≠ [])
    (ht : ∀ c ∈ t, isPySpace c = false) :
    pyStrip (n ++ ' ' :: t) = n ++ ' ' :: t := by
  have hdrop := dropWhile_goodLine n t hn1 hn
  have hlast : List.rdropWhile isPySpace (n ++ ' ' :: t) = n ++ ' ' :: t := by
    rw [List.rdropWhile_eq_self_iff]
    intro hl
    obtain ⟨d, ds, rfl⟩ := List.exists_cons_of_ne_nil ht1
    have h1 : (n ++ ' ' :: d :: ds).getLast? = (d :: ds).getLast? := by
      rw [List.getLast?_append_cons, List.getLast?_cons_cons]
    have h2 := List.getLast?_eq_getLast_of_ne_nil hl
    have h3 := List.getLast?_eq_getLast_of_ne_nil (l := d :: ds) (by simp)
    rw [h2, h3] at h1
    rw [Option.some.inj h1]
    have hmem := List.getLast_mem (l := d :: ds) (by simp)
    simp [ht _ hmem]
  show List.rdropWhile isPySpace ((n ++ ' ' :: t).dropWhile isPySpace) = n ++ ' ' :: t
  rw [hdrop, hlast]

/-- Splitting a cache line of a well-formed pair recovers the name and
the token. -/
theorem pySplitMax1_goodLine (n t : PyStr) (hn1 : n ≠ [])
    (hn : ∀ c ∈ n, isPySpace c = false) (ht1 : t ≠ [])
    (ht : ∀ c ∈ t, isPySpace c = false) :
    pySplitMax1 (n ++ ' ' :: t) = [n, t] := by
  have hdrop := dropWhile_goodLine n t hn1 hn
  have htake : (n ++ ' ' :: t).takeWhile (fun c => !isPySpace c) = n := by
    refine takeWhile_append_cons n ' ' t (fun c hc => ?_) (by simp [isPySpace])
    simp [hn c hc]
  have hrest : ((n ++ ' ' :: t).drop n.length).dropWhile isPySpace = t := by
    rw [List.drop_left]
    rw [List.dropWhile_cons]
    simp only [show isPySpace ' ' = true from rfl, if_true]
    exact dropWhile_good t ht1 ht
  simp only [pySplitMax1, hdrop, htake, hrest]
  rw [if_neg (by simp), if_neg ht1]

/-- The load-loop body on the line of a well-formed pair performs the
dict update exactly when the token matches the uuid pattern. -/
theorem loadLine_cacheLine (p : PyStr × PyStr) (acc : List (PyStr × PyStr))
    (hp : goodPair p) : loadLine acc (cacheLine p) = .ok (loadStep acc p) := by
  obtain ⟨hn1, hn, ht1, ht⟩ := hp
  unfold loadLine cacheLine
  rw [pyStrip_goodLine p.1 p.2 hn1 hn ht1 ht, pySplitMax1_goodLine p.1 p.2 hn1 hn ht1 ht]
  unfold loadStep
  by_cases hu : isUuid p.2 <;> simp [hu]

/-- The load loop over the written lines folds the dict update over the
pairs. -/
theorem loadLines_map (ps : List (PyStr × PyStr)) (acc : List (PyStr × PyStr))
    (hgood : ∀ p ∈ ps, goodPair p) :
    loadLines (ps.map cacheLine) acc = .ok (ps.foldl loadStep acc) := by
  induction ps generalizing acc with
  | nil => rfl
  | cons p ps ih =>
    have hp := hgood p (List.mem_cons_self p ps)
    simp only [List.map_cons, loadLines, loadLine_cacheLine p acc hp, List.foldl_cons]
    exact ih (loadStep acc p) (fun q hq => hgood q (List.mem_cons_of_mem p hq))

/-- Assigning a key absent from the dict appends the entry. -/
theorem insertAssoc_fresh (d : List (PyStr × PyStr)) (k v : PyStr)
    (h : ∀ q ∈ d, q.1 ≠ k) : insertAssoc d k v = d ++ [(k, v)] := by
  induction d with
  | nil => rfl
  | cons q d ih =>
    obtain ⟨k0, v0⟩ := q
    simp only [insertAssoc]
    rw [if_neg (h (k0, v0) (List.mem_cons_self _ d)),
      ih (fun r hr => h r (List.mem_cons_of_mem _ hr))]
    rfl

/-- Folding the dict update over pairs with pairwise-distinct names,
all absent from the accumulator, appends exactly the pairs whose token
matches the uuid pattern. -/
theorem foldl_loadStep (ps : List (PyStr × PyStr)) :
    ∀ acc : List (PyStr × PyStr), (∀ p ∈ ps, ∀ q ∈ acc, q.1 ≠ p.1) →
      ps.Pairwise (fun p q => p.1 ≠ q.1) →
      ps.foldl loadStep acc = acc ++ ps.filter (fun p => isUuid p.2) := by
  induction ps with
  | nil => intro acc _ _; simp
  | cons p ps ih =>
    intro acc hfresh hdist
    rcases List.pairwise_cons.mp hdist with ⟨hhead, htail⟩
    by_cases hu : isUuid p.2
    · have hstep : loadStep acc p = acc ++ [p] := by
        unfold loadStep
        rw [if_pos hu, insertAssoc_fresh acc p.1 p.2
          (fun q hq => hfresh p (List.mem_cons_self p ps) q hq)]
      rw [List.foldl_cons, hstep, ih (acc ++ [p]) ?fresh htail]
      · simp [List.filter_cons, hu]
      case fresh =>
        intro r hr q hq
        rcases List.mem_append.mp hq with hq1 | hq2
        · exact hfresh r (List.mem_cons_of_mem p hr) q hq1
        · rcases List.mem_singleton.mp hq2 with rfl
          exact hhead r hr
    · have hstep : loadStep acc p = acc := by
        unfold loadStep
        rw [if_neg hu]
      rw [List.foldl_cons, hstep,
        ih acc (fun r hr q hq => hfresh r (List.mem_cons_of_mem p hr) q hq) htail]
      simp [List.filter_cons, hu]

/-- Splitting on a separator that the first chunk avoids peels the
chunk off. -/
theorem splitOnChar_append (sep : Char) (a b : PyStr) (h : ∀ c ∈ a, ¬c = sep) :
    splitOnChar sep (a ++ sep :: b) = a :: splitOnChar sep b := by
  induction a with
  | nil => simp [splitOnChar]
  | cons c cs ih =>
    have hc := h c (List.mem_cons_self c cs)
    rw [List.cons_append]
    simp only [splitOnChar, if_neg hc, ih (fun d hd => h d (List.mem_cons_of_mem c hd))]

/-- Splitting the saved file on newlines yields one chunk per pair plus
a final empty chunk from the trailing newline. -/
theorem splitOnChar_save (ps : List (PyStr × PyStr)) (hgood : ∀ p ∈ ps, goodPair p) :
    splitOnChar '\n' (save_cookie_cache ps) = ps.map cacheLine ++ [[]] := by
  induction ps with
  | nil => rfl
  | cons p ps ih =>
    have hp := hgood p (List.mem_cons_self p ps)
    have hnl : ∀ c ∈ cacheLine p, ¬c = '\n' := by
      intro c hc he
      subst he
      rcases List.mem_append.mp hc with h1 | h2
      · have := hp.2.1 _ h1
        simp [isPySpace] at this
      · rcases List.mem_cons.mp h2 with h3 | h4
        · exact absurd h3 (by decide)
        · have := hp.2.2.2 _ h4
          simp [isPySpace] at this
    have hshape : save_cookie_cache (p :: ps)
        = cacheLine p ++ '\n' :: save_cookie_cache ps := by
      simp [save_cookie_cache, cacheLine]
    rw [hshape, splitOnChar_append '\n' (cacheLine p) (save_cookie_cache ps) hnl,
      ih (fun q hq => hgood q (List.mem_cons_of_mem p hq))]
    rfl

/-- Reading back the saved file yields exactly the written lines. -/
theorem readlines_save (ps : List (PyStr × PyStr)) (hgood : ∀ p ∈ ps, goodPair p) :
    readlines (save_cookie_cache ps) = ps.map cacheLine := by
  simp only [readlines]
  rw [splitOnChar_save ps hgood, List.getLast?_concat, if_pos rfl, List.dropLast_concat]

/-- C7 (amended): for a mapping whose names and tokens are non-empty
and whitespace-free, with pairwise-distinct names, reading back the
saved file returns exactly the pairs whose token is a valid uuid; in
particular an all-uuid mapping round-trips unchanged, and saving the
read-back mapping and reading again is stable. -/
theorem cookie_roundtrip_amended (ps : List (PyStr × PyStr))
    (hgood : ∀ p ∈ ps, goodPair p)
    (hdist : ps.Pairwise (fun p q => p.1 ≠ q.1)) :
    load_cookie_cache true (save_cookie_cache ps)
        = Except.ok (ps.filter (fun p => isUuid p.2))
    ∧ ((∀ p ∈ ps, isUuid p.2 = true) →
        load_cookie_cache true (save_cookie_cache ps) = Except.ok ps)
    ∧ load_cookie_cache true (save_cookie_cache (ps.filter (fun p => isUuid p.2)))
        = Except.ok (ps.filter (fun p => isUuid p.2)) := by
  have main : ∀ qs : List (PyStr × PyStr), (∀ p ∈ qs, goodPair p) →
      qs.Pairwise (fun p q => p.1 ≠ q.1) →
      load_cookie_cache true (save_cookie_cache qs)
        = Except.ok (qs.filter (fun p => isUuid p.2)) := by
    intro qs hg hd
    unfold load_cookie_cache
    rw [if_pos rfl, readlines_save qs hg, loadLines_map qs [] hg,
      foldl_loadStep qs [] (by simp) hd]
    simp
  refine ⟨main ps hgood hdist, ?_, ?_⟩
  · intro hall
    rw [main ps hgood hdist, List.filter_eq_self.mpr hall]
  · have hg' : ∀ p ∈ ps.filter (fun p => isUuid p.2), goodPair p :=
      fun p hp => hgood p (List.mem_of_mem_filter hp)
    have hsub : List.Sublist (ps.filter (fun p => isUuid p.2)) ps := List.filter_sublist ps
    have hd' := List.Pairwise.sublist hsub hdist
    rw [main _ hg' hd', List.filter_eq_self.mpr (fun p hp => (List.mem_filter.mp hp).2)]

/-- Cache pairs for the round-trip witness: distinct whitespace-free
names, one valid uuid token and one malformed token. -/
def wPairs : List (PyStr × PyStr) := [(['a'], uuidTok), (['b'], ['x'])]

theorem cookie_roundtrip_amended_witness :
    load_cookie_cache true (save_cookie_cache wPairs) = Except.ok [(['a'], uuidTok)] := by
  rw [(cookie_roundtrip_amended wPairs (by decide) (by decide)).1]
  rfl

/-- C7 counterexample: a single pair whose name contains a space and
whose token is a valid uuid does not survive the write/read round trip:
on read the name's second word is absorbed into the token field, which
then fails the uuid check, so the entry is dropped. -/
theorem cookie_roundtrip_cex :
    isUuid uuidTok = true
    ∧ load_cookie_cache true (save_cookie_cache [(['a', ' ', 'b'], uuidTok)])
        = Except.ok []
    ∧ (Except.ok ([] : List (PyStr × PyStr)) : Except String (List (PyStr × PyStr)))
        ≠ Except.ok [(['a', ' ', 'b'], uuidTok)] := by
  refine ⟨by decide, rfl, fun h => ?_⟩
  exact absurd (Except.ok.inj h) (by decide)

/-- If `pat` is a prefix of `s`, the remainder of `s` after it. -/
def stripLead : PyStr → PyStr → Option PyStr
  | [], s => some s
  | _ :: _, [] => none
  | p :: ps, c :: cs => if p = c then stripLead ps cs else none

/-- `re.findall('pat(.*)', s)[0]` on a single-line string: everything
after the first occurrence of the anchor `pat`, to the end; `none` when
the anchor does not occur (the `[0]` indexing then raises). -/
def extractAfter (pat : PyStr) : PyStr → Option PyStr
  | [] => if pat = [] then some [] else none
  | c :: cs =>
    match stripLead pat (c :: cs) with
    | some rest => some rest
    | none => extractAfter pat cs

/-- The characters before the first occurrence of `stop`, if present. -/
def takeUntil (stop : Char) : PyStr → Option PyStr
  | [] => none
  | c :: cs =>
    if c = stop then some []
    else
      match takeUntil stop cs with
      | none => none
      | some r => some (c :: r)

/-- `re.findall('pat(.*?)stop', s)[0]`: the shortest run after the
first occurrence of `pat` up to the next `stop` character; `none` when
there is no match anywhere in the string. -/
def extractUpTo (pat : PyStr) (stop : Char) (s : PyStr) : Option PyStr :=
  match extractAfter pat s with
  | none => none
  | some rest => takeUntil stop rest

/-- The result of one `ZWYT.login` run: the returned code or a raised
Python exception, the stored `ic-cookie` after the call, and the number
of HTTP requests made up to that point. -/
structure LoginOutcome where
  result : Except String ReturnCode
  cookie : PyStr
  httpCalls : Nat
deriving Repr

/-- The scripted environment of one `ZWYT.login` run: whether
`get_login_url` succeeds (and how many of its two requests were made if
it raised), the resolved login url, and the relevant fragment of each
subsequent response; `none` models a missing xpath match or header. -/
structure LoginEnv where
  loginUrlOk : Bool
  loginUrlCalls : Nat
  login_url : PyStr
  lt : Option PyStr
  execution : Option PyStr
  postLocation : Option PyStr
  redirectLocation : Option PyStr
  setCookie : Option PyStr
deriving Repr

/-- `ZWYT.login` (`libs/source.py` lines 276-339) as a function of its
scripted environment, the `force_login` flag and the currently stored
`ic-cookie`.  Request count: `get_login_url` makes two requests, the
login-form GET is request 3, the credential POST request 4, the ticket
GET request 5 and the token GET request 6.  A missing `Location` header
of the POST becomes the string `"None"` through `str(...)`; a missing
`Location` header of the ticket GET raises in `unquote(None)`; a
missing `Set-Cookie` header raises inside `re.findall` on `None`.  The
password-reset probe on the POST response calls a stub whose body is
`...`, so it has no effect; `unquote` is modelled as the identity,
which does not change whether the anchors occur in the fragments. -/
def login (env : LoginEnv) (force_login : Bool) (cookie : PyStr) : LoginOutcome :=
  if !force_login && !cookie.isEmpty then
    { result := .ok ReturnCode.LOGIN_SKIPED, cookie := cookie, httpCalls := 0 }
  else if !env.loginUrlOk then
    { result := .ok ReturnCode.GET_LOGIN_URL_FAILED, cookie := cookie,
      httpCalls := env.loginUrlCalls }
  else
    match env.lt with
    | none => { result := .error "IndexError", cookie := cookie, httpCalls := 3 }
    | some _lt =>
    match env.execution with
    | none => { result := .error "IndexError", cookie := cookie, httpCalls := 3 }
    | some _execution =>
    match extractAfter "ticket=".data (match env.postLocation with
      | some l => l
      | none => ['N', 'o', 'n', 'e']) with
    | none => { result := .error "IndexError", cookie := cookie, httpCalls := 4 }
    | some _ticket =>
    match extractAfter "service=".data env.login_url with
    | none => { result := .error "IndexError", cookie := cookie, httpCalls := 4 }
    | some _service =>
    match env.redirectLocation with
    | none => { result := .error "AttributeError", cookie := cookie, httpCalls := 5 }
    | some location2 =>
    match extractAfter "uniToken=".data location2 with
    | none => { result := .error "IndexError", cookie := cookie, httpCalls := 5 }
    | some _unitoken =>
    match extractUpTo "uuid=".data '&' location2 with
    | none => { result := .error "IndexError", cookie := cookie, httpCalls := 5 }
    | some _uuid =>
    match env.setCookie with
    | none => { result := .error "TypeError", cookie := cookie, httpCalls := 6 }
    | some icc =>
    match extractUpTo "ic-cookie=".data ';' icc with
    | none => { result := .error "IndexError", cookie := cookie, httpCalls := 6 }
    | some icv => { result := .ok ReturnCode.SUCCESS, cookie := icv, httpCalls := 6 }

/-- An environment whose login-form response lacks the `lt` hidden
field (step 2 of the negotiation), the url resolution succeeding. -/
def missingLtEnv : LoginEnv :=
  { loginUrlOk := true, loginUrlCalls := 2,
    login_url := "http://x?service=http%3A%2F%2Fy".data,
    lt := none, execution := none, postLocation := none,
    redirectLocation := none, setCookie := none }

/-- C6: with a non-empty pre-supplied token and `force_login = false`,
`login` performs zero HTTP calls, skips the protocol steps entirely and
returns `LOGIN_SKIPED` with the token unchanged. -/
theorem login_fast_path (env : LoginEnv) (cookie : PyStr) (h : cookie ≠ []) :
    login env false cookie
      = { result := .ok ReturnCode.LOGIN_SKIPED, cookie := cookie, httpCalls := 0 } := by
  have hc : (!false && !cookie.isEmpty) = true := by
    simp [List.isEmpty_iff, h]
  unfold login
  rw [if_pos hc]

theorem login_fast_path_witness :
    login missingLtEnv false ['x']
      = { result := .ok ReturnCode.LOGIN_SKIPED, cookie := ['x'], httpCalls := 0 } :=
  login_fast_path missingLtEnv ['x'] (by decide)

/-- C5 counterexample: with the login url resolved but the `lt` hidden
field missing from the login form, `login` raises `IndexError`; it does
not return any `ReturnCode`, in particular not `FAILED`. -/
theorem login_extraction_miss_cex :
    (login missingLtEnv true []).result = Except.error "IndexError"
    ∧ ∀ c : ReturnCode, (login missingLtEnv true []).result ≠ Except.ok c := by
  refine ⟨rfl, fun c h => ?_⟩
  rw [show (login missingLtEnv true []).result = Except.error "IndexError" from rfl] at h
  exact Except.noConfusion h

/-- Every run of `login` either leaves the stored cookie unchanged and
returns `LOGIN_SKIPED`, `GET_LOGIN_URL_FAILED` or a raised exception,
or it completes with the full-success outcome. -/
theorem login_shape (env : LoginEnv) (force_login : Bool) (cookie : PyStr) :
    ((login env force_login cookie).result = Except.ok ReturnCode.LOGIN_SKIPED
        ∨ (login env force_login cookie).result = Except.ok ReturnCode.GET_LOGIN_URL_FAILED
        ∨ (∃ e, (login env force_login cookie).result = Except.error e))
      ∧ (login env force_login cookie).cookie = cookie
    ∨ (login env force_login cookie).result = Except.ok ReturnCode.SUCCESS := by
  unfold login
  by_cases h1 : (!force_login && !cookie.isEmpty) = true
  · rw [if_pos h1]; exact Or.inl ⟨Or.inl rfl, rfl⟩
  rw [if_neg h1]
  by_cases h2 : (!env.loginUrlOk) = true
  · rw [if_pos h2]; exact Or.inl ⟨Or.inr (Or.inl rfl), rfl⟩
  rw [if_neg h2]
  rcases hlt : env.lt with _ | lt
  · exact Or.inl ⟨Or.inr (Or.inr ⟨_, rfl⟩), rfl⟩
  rcases hex : env.execution with _ | ex
  · exact Or.inl ⟨Or.inr (Or.inr ⟨_, rfl⟩), rfl⟩
  rcases htk : extractAfter "ticket=".data (match env.postLocation with
      | some l => l
      | none => ['N', 'o', 'n', 'e']) with _ | tk
  · exact Or.inl ⟨Or.inr (Or.inr ⟨_, rfl⟩), rfl⟩
  rcases hsv : extractAfter "service=".data env.login_url with _ | sv
  · exact Or.inl ⟨Or.inr (Or.inr ⟨_, rfl⟩), rfl⟩
  rcases hrl : env.redirectLocation with _ | loc2
  · exact Or.inl ⟨Or.inr (Or.inr ⟨_, rfl⟩), rfl⟩
  dsimp only
  rcases hut : extractAfter "uniToken=".data loc2 with _ | ut
  · exact Or.inl ⟨Or.inr (Or.inr ⟨_, rfl⟩), rfl⟩
  rcases huu : extractUpTo "uuid=".data '&' loc2 with _ | uu
  · exact Or.inl ⟨Or.inr (Or.inr ⟨_, rfl⟩), rfl⟩
  rcases hsc : env.setCookie with _ | icc
  · exact Or.inl ⟨Or.inr (Or.inr ⟨_, rfl⟩), rfl⟩
  dsimp only
  rcases hic : extractUpTo "ic-cookie=".data ';' icc with _ | icv
  · exact Or.inl ⟨Or.inr (Or.inr ⟨_, rfl⟩), rfl⟩
  exact Or.inr rfl

/-- C5 (amended): a missing required value at steps 2-6 surfaces as a
raised exception that escapes `login` (caught only by the per-identity
loop of `sign.py`); the typed outcomes of `login` are exactly
`LOGIN_SKIPED`, `GET_LOGIN_URL_FAILED` and `SUCCESS` — `FAILED` is
never returned. -/
theorem login_no_failed_outcome (env : LoginEnv) (force_login : Bool) (cookie : PyStr) :
    (∀ c : ReturnCode, (login env force_login cookie).result = Except.ok c →
      c = ReturnCode.LOGIN_SKIPED ∨ c = ReturnCode.GET_LOGIN_URL_FAILED ∨
      c = ReturnCode.SUCCESS)
    ∧ (env.loginUrlOk = true → (!force_login && !cookie.isEmpty) = false → env.lt = none →
      (login env force_login cookie).result = Except.error "IndexError") := by
  constructor
  · intro c h
    rcases login_shape env force_login cookie with ⟨h1 | h1 | ⟨e, h1⟩, _⟩ | h1
    · exact Or.inl (Except.ok.inj (h.symm.trans h1))
    · exact Or.inr (Or.inl (Except.ok.inj (h.symm.trans h1)))
    · exact Except.noConfusion (h.symm.trans h1)
    · exact Or.inr (Or.inr (Except.ok.inj (h.symm.trans h1)))
  · intro hok hskip hlt
    unfold login
    rw [if_neg (by simp [hskip]), if_neg (by simp [hok])]
    simp [hlt]

theorem login_no_failed_outcome_witness :
    (login missingLtEnv true []).result = Except.error "IndexError" :=
  (login_no_failed_outcome missingLtEnv true []).2 rfl rfl rfl

/-- C9: the stored `ic-cookie` changes only on the path that completes
the whole negotiation with `SUCCESS`; the `LOGIN_SKIPED` and
`GET_LOGIN_URL_FAILED` paths, and every raised-exception path, leave it
unchanged. -/
theorem login_cookie_frame (env : LoginEnv) (force_login : Bool) (cookie : PyStr) :
    ((login env force_login cookie).cookie ≠ cookie →
      (login env force_login cookie).result = Except.ok ReturnCode.SUCCESS)
    ∧ ((login env force_login cookie).result = Except.ok ReturnCode.LOGIN_SKIPED →
      (login env force_login cookie).cookie = cookie)
    ∧ ((login env force_login cookie).result = Except.ok ReturnCode.GET_LOGIN_URL_FAILED →
      (login env force_login cookie).cookie = cookie)
    ∧ (∀ e, (login env force_login cookie).result = Except.error e →
      (login env force_login cookie).cookie = cookie) := by
  have hs := login_shape env force_login cookie
  refine ⟨fun h => ?_, fun h => ?_, fun h => ?_, fun e h => ?_⟩
  · rcases hs with ⟨_, h1⟩ | h2
    · exact absurd h1 h
    · exact h2
  · rcases hs with ⟨_, h1⟩ | h2
    · exact h1
    · exact absurd (Except.ok.inj (h.symm.trans h2)) (by decide)
  · rcases hs with ⟨_, h1⟩ | h2
    · exact h1
    · exact absurd (Except.ok.inj (h.symm.trans h2)) (by decide)
  · rcases hs with ⟨_, h1⟩ | h2
    · exact h1
    · exact Except.noConfusion (h.symm.trans h2)

theorem login_cookie_frame_witness :
    (login missingLtEnv false ['x']).cookie = ['x'] :=
  (login_cookie_frame missingLtEnv false ['x']).2.1 rfl

/-- The `reserveInfo` object of the device-login response. -/
structure ReserveInfo where
  resvId : Int
deriving DecidableEq, Repr

/-- The `data` object of the device-login response. -/
structure DevLoginData where
  reserveInfo : Option ReserveInfo
deriving DecidableEq, Repr

/-- The scripted responses consumed by one iteration of `ZWYT.sign`:
the device-login response (its `data` and `message` fields) and the
message of the subsequent sign POST response. -/
structure SignStep where
  res1_data : Option DevLoginData
  res1_message : PyStr
  res2_message : PyStr
deriving DecidableEq, Repr

/-- The content strictly before the last occurrence of `t`, if any. -/
def beforeLast (t : Char) : PyStr → Option PyStr
  | [] => none
  | c :: rest =>
    match beforeLast t rest with
    | some grp => some (c :: grp)
    | none => if c = t then some [] else none

/-- `re.findall("-(.*)处", message)[0]` on a single-line message: the
text between the first `-` that still has a `处` somewhere after it and
the last `处` of the message (the `.*` is greedy); `none` when the
pattern does not match, in which case the `[0]` indexing raises. -/
def extract_corrected_label : PyStr → Option PyStr
  | [] => none
  | c :: rest =>
    if c = '-' then
      match beforeLast '处' rest with
      | some grp => some grp
      | none => none
    else extract_corrected_label rest

/-- `ZWYT.sign` (`libs/source.py` lines 511-567) over a script of
responses, one `SignStep` per (recursive) call: an absent `data` field
extracts the corrected seat label from the message and recurses on it;
an absent `reserveInfo` returns `NO_RESERVATION`; otherwise the sign
POST is made and its message mapped to the outcome.  The result also
carries the device names used by the successive calls.  `none` models a
recursion that exhausts the script or a raised exception from the label
extraction; the `devSn` lookup and the request payloads do not affect
the control flow and are not modelled. -/
def sign : List SignStep → PyStr → Option (List PyStr × ReturnCode)
  | [], _ => none
  | step :: rest, devName =>
    match step.res1_data with
    | none =>
      match extract_corrected_label step.res1_message with
      | none => none
      | some label =>
        match sign rest label with
        | none => none
        | some (calls, code) => some (devName :: calls, code)
    | some d =>
      match d.reserveInfo with
      | none => some ([devName], ReturnCode.NO_RESERVATION)
      | some _ =>
        if step.res2_message = "操作成功".data then
          some ([devName], ReturnCode.SUCCESS)
        else if step.res2_message = "用户已签到，请勿重复签到".data then
          some ([devName], ReturnCode.ALREADY_SIGNED)
        else
          some ([devName], ReturnCode.FAILED)

/-- A device-login response with absent `data` whose message embeds the
corrected seat label `101`. -/
def badStep : SignStep :=
  { res1_data := none
    res1_message := "设备不符:预约的是-101处".data
    res2_message := [] }

/-- A device-login response with present `data` and `reserveInfo`,
whose sign POST succeeds. -/
def goodStep : SignStep :=
  { res1_data := some { reserveInfo := some { resvId := 1 } }
    res1_message := []
    res2_message := "操作成功".data }

/-- C2 counterexample: two consecutive data-absent responses make
`sign` retry twice — the call trace holds three device names, so the
number of self-correcting retries of this top-level call is two, not at
most one. -/
theorem sign_self_correction_cex :
    sign [badStep, badStep, goodStep] "202-001".data
      = some (["202-001".data, "101".data, "101".data], ReturnCode.SUCCESS)
    ∧ ¬((["202-001".data, "101".data, "101".data] : List PyStr).length - 1 ≤ 1) := by
  exact ⟨rfl, by decide⟩

/-- C2 (amended): a device-login response with absent `data` and a
message matching the `-(label)处` pattern makes `sign` retry exactly
once more against the extracted label — one further call per such
response, with no overall bound imposed by the code. -/
theorem sign_retry_step (step : SignStep) (rest : List SignStep) (devName label : PyStr)
    (hdata : step.res1_data = none)
    (hlabel : extract_corrected_label step.res1_message = some label) :
    sign (step :: rest) devName
      = (sign rest label).map (fun r => (devName :: r.1, r.2)) := by
  cases h : sign rest label with
  | none => simp [sign, hdata, hlabel, h]
  | some r =>
    cases r
    simp [sign, hdata, hlabel, h]

theorem sign_retry_step_witness :
    sign [badStep, goodStep] "202-001".data
      = some (["202-001".data, "101".data], ReturnCode.SUCCESS) := by
  rw [sign_retry_step badStep [goodStep] ("202-001".data) ("101".data) rfl rfl]
  rfl

end GZHU
